import Mathlib

/-!
# Verification of the rm_hwmon_keyboard driver (rm_hwmon_keyboard.c)

A shallow embedding of the keyboard accessory driver: the attribute decode
callbacks and their registry table, the single-slot attribute writer, the
indicator-event handler, the key-event report path, the firmware-update
sequence and the connect/registration sequence.  External collaborators
(the HSP transport API, the firmware loader, the input and backlight
subsystems, `devm_krealloc`, `schedule_work`) are modelled as oracle
parameters supplying their return values; everything the driver itself
computes is translated from the source.
-/

set_option linter.unusedVariables false

/- ### Constants from the source and the kernel headers it uses -/

/-- `ENXIO` errno value. -/
def ENXIO : Int := 6
/-- `ENOEXEC` errno value. -/
def ENOEXEC : Int := 8
/-- `ENOMEM` errno value. -/
def ENOMEM : Int := 12
/-- `EACCES` errno value. -/
def EACCES : Int := 13
/-- `EBUSY` errno value. -/
def EBUSY : Int := 16
/-- `ENODEV` errno value. -/
def ENODEV : Int := 19

/-- Linux input event type `EV_LED`. -/
def EV_LED : Nat := 0x11
/-- Linux LED code `LED_CAPSL`. -/
def LED_CAPSL : Nat := 0x01
/-- Linux LED code `LED_MISC`. -/
def LED_MISC : Nat := 0x08

/-- `ATTRIBUTES_NR_OF_BKLS`: number of backlight LED slots. -/
def ATTRIBUTES_NR_OF_BKLS : Nat := 6
/-- `MAX_BL_BRIGHTNESS`. -/
def MAX_BL_BRIGHTNESS : Nat := 255
/-- `FWU_MAX_PACKET_SIZE`. -/
def FWU_MAX_PACKET_SIZE : Nat := 256

/-- `enum condor_language`: `LANGUAGE_MIN = 0`, then DE, ES, FR, IT, NO, PT,
UK, US, `LANGUAGE_MAX = 9`. -/
def LANGUAGE_MIN : Nat := 0
/-- Upper illegal sentinel of `enum condor_language`. -/
def LANGUAGE_MAX : Nat := 9

/- `enum condor_attribute_ids` (values fixed by the enum in the source). -/

/-- Attribute id `KB_ATTR_ID_FW_VERSION`. -/
def KB_ATTR_ID_FW_VERSION : Nat := 0x02
/-- Attribute id `KB_ATTR_ID_IMAGE_START_ADDRESS`. -/
def KB_ATTR_ID_IMAGE_START_ADDRESS : Nat := 0x06
/-- Attribute id `KB_ATTR_ID_DEVICE_NAME`. -/
def KB_ATTR_ID_DEVICE_NAME : Nat := 0x07
/-- Attribute id `KB_ATTR_ID_GIT_INFO`. -/
def KB_ATTR_ID_GIT_INFO : Nat := 0x08
/-- Attribute id `KB_ATTR_ID_VALID_IMAGE`. -/
def KB_ATTR_ID_VALID_IMAGE : Nat := 0x09
/-- Attribute id `KB_ATTR_ID_KEY_LAYOUT`. -/
def KB_ATTR_ID_KEY_LAYOUT : Nat := 0x10
/-- Attribute id `KB_ATTR_ID_LANGUAGE`. -/
def KB_ATTR_ID_LANGUAGE : Nat := 0x11
/-- Attribute id `KB_ATTR_ID_RM_SERIAL_NUMBER`. -/
def KB_ATTR_ID_RM_SERIAL_NUMBER : Nat := 0x12
/-- Attribute id `KB_ATTR_ID_CN_SERIAL_NUMBER`. -/
def KB_ATTR_ID_CN_SERIAL_NUMBER : Nat := 0x13
/-- Attribute id `KB_ATTR_ID_MFG_PROD_RECORDS`. -/
def KB_ATTR_ID_MFG_PROD_RECORDS : Nat := 0x20
/-- Attribute id `KB_ATTR_ID_BKL_BRIGHTNESS`. -/
def KB_ATTR_ID_BKL_BRIGHTNESS : Nat := 0x52
/-- Attribute id `KB_ATTR_ID_KEY_LIGHT_CAPS`. -/
def KB_ATTR_ID_KEY_LIGHT_CAPS : Nat := 0x53
/-- Attribute id `KB_ATTR_ID_KEY_LIGHT_RM`. -/
def KB_ATTR_ID_KEY_LIGHT_RM : Nat := 0x54

/-- Modelled from the spec: the wire-type tags of the attribute storage
format (`ATTRIBUTE_STORAGE_DATA_*` from `rm_hwmon_api.h`, which is not in
the repository).  The source only compares these tags for equality, so the
concrete numerals are representative; only their distinctness matters. -/
def ATTRIBUTE_STORAGE_DATA_UNSIGNED_8_BIT : Nat := 0
/-- Wire-type tag for unsigned 16-bit attributes. -/
def ATTRIBUTE_STORAGE_DATA_UNSIGNED_16_BIT : Nat := 1
/-- Wire-type tag for unsigned 32-bit attributes. -/
def ATTRIBUTE_STORAGE_DATA_UNSIGNED_32_BIT : Nat := 2
/-- Wire-type tag for raw 32-bit attributes. -/
def ATTRIBUTE_STORAGE_DATA_32_BIT : Nat := 3
/-- Wire-type tag for boolean attributes. -/
def ATTRIBUTE_STORAGE_DATA_BOOLEAN : Nat := 4
/-- Wire-type tag for 8-bit enum attributes. -/
def ATTRIBUTE_STORAGE_DATA_ENUM_8_BIT : Nat := 5
/-- Wire-type tag for fixed-array attributes. -/
def ATTRIBUTE_STORAGE_DATA_ARRAY : Nat := 6
/-- Wire-type tag for octet-string attributes. -/
def ATTRIBUTE_STORAGE_DATA_CHARACTER_STRING : Nat := 7

/- ### Data model -/

/-- `struct fw_version` (two bytes: major, minor) as used through
`rm_hwmon_fwu.h`. -/
structure FwVersion where
  major : Nat
  minor : Nat
deriving DecidableEq, Repr

/-- The driver state relevant to the claims: the fields of `struct kb_data`.
Pointers that can be NULL become `Option`; C strings become byte lists
(`devm_krealloc`ed buffers including the terminating zero byte). -/
structure KbData where
  /-- `kb_dev != NULL`: the logical input surface is registered. -/
  kb_dev_present : Bool
  kb_row_shift : Nat
  key_layout : Nat
  language : Nat
  rm_serial_number : Option (List Nat)
  cn_serial_number : Option (List Nat)
  mfg_prod_records : Nat
  device_name : Option (List Nat)
  git_info : Nat
  bl_brightness : Int
  bl_brightness_array : List Nat
  is_image_valid : Bool
  rm_key_light : Bool
  caps_key_light : Bool
  rm_key_on_after_resume : Bool
  /-- `attr_writer.attribute` -/
  attr_writer_attribute : Nat
  /-- `attr_writer.request`: the pending single-byte payload, `none` when the
  slot is free (`request == NULL`). -/
  attr_writer_request : Option Nat
  /-- `attr_writer.data_length` -/
  attr_writer_data_length : Nat
  /-- `fwu.current_fw_version` -/
  fwu_current_fw_version : FwVersion
  /-- `fwu.current_image_start_address` -/
  fwu_current_image_start_address : Nat
deriving DecidableEq, Repr

/-- A baseline zeroed state, as `devm_kzalloc` produces in the probe. -/
def kb0 : KbData :=
  { kb_dev_present := false
    kb_row_shift := 0
    key_layout := 0
    language := 0
    rm_serial_number := none
    cn_serial_number := none
    mfg_prod_records := 0
    device_name := none
    git_info := 0
    bl_brightness := 0
    bl_brightness_array := [0, 0, 0, 0, 0, 0]
    is_image_valid := false
    rm_key_light := false
    caps_key_light := false
    rm_key_on_after_resume := false
    attr_writer_attribute := 0
    attr_writer_request := none
    attr_writer_data_length := 0
    fwu_current_fw_version := ⟨0, 0⟩
    fwu_current_image_start_address := 0 }

/-- The payload union of `struct attribute_rx` (one constructor per union
member the source reads).  Reinterpreting one member as another is not
modelled: each decode callback is applied to the payload variant the
registry's wire type delivers, and rejects any other variant. -/
inductive AttrRxData where
  | u8_data (v : Nat)
  | u16_data (v : Nat)
  | u32_data (v : Nat)
  | bool_data (v : Bool)
  | array (subtype : Nat) (n_len : Nat) (array_data : List Nat)
  | octets (str : List Nat)
deriving DecidableEq, Repr

/-- `struct attribute_rx`: attribute id plus typed payload. -/
structure AttrRx where
  id : Nat
  data : AttrRxData
deriving DecidableEq, Repr

/- ### Attribute decode callbacks

`MAKE_READER(name, member, struct kb_data, field)` comes from
`rm_hwmon_api.h`, which is not in the repository.  Modelled from the spec:
fixed-width integer/bool/enum decodes are a bit-exact passthrough of the
typed payload member into the target field, returning true. -/

/-- `MAKE_READER(key_layout, u8_data, struct kb_data, key_layout)`. -/
def reader_key_layout (allocOk : Bool) (st : KbData) (rx : AttrRx) : Bool × KbData :=
  match rx.data with
  | .u8_data v => (true, { st with key_layout := v })
  | _ => (false, st)

/-- `MAKE_READER(language, u8_data, struct kb_data, language)`. -/
def reader_language (allocOk : Bool) (st : KbData) (rx : AttrRx) : Bool × KbData :=
  match rx.data with
  | .u8_data v => (true, { st with language := v })
  | _ => (false, st)

/-- `MAKE_READER(image_start_address, u32_data, ..., fwu.current_image_start_address)`. -/
def reader_image_start_address (allocOk : Bool) (st : KbData) (rx : AttrRx) : Bool × KbData :=
  match rx.data with
  | .u32_data v => (true, { st with fwu_current_image_start_address := v })
  | _ => (false, st)

/-- `MAKE_READER(git_info, u32_data, struct kb_data, git_info)`. -/
def reader_git_info (allocOk : Bool) (st : KbData) (rx : AttrRx) : Bool × KbData :=
  match rx.data with
  | .u32_data v => (true, { st with git_info := v })
  | _ => (false, st)

/-- `MAKE_READER(valid_image, bool_data, struct kb_data, is_image_valid)`. -/
def reader_valid_image (allocOk : Bool) (st : KbData) (rx : AttrRx) : Bool × KbData :=
  match rx.data with
  | .bool_data v => (true, { st with is_image_valid := v })
  | _ => (false, st)

/-- `MAKE_READER(prod_records, u8_data, struct kb_data, mfg_prod_records)`. -/
def reader_prod_records (allocOk : Bool) (st : KbData) (rx : AttrRx) : Bool × KbData :=
  match rx.data with
  | .u8_data v => (true, { st with mfg_prod_records := v })
  | _ => (false, st)

/-- `MAKE_READER(rm_key_light, bool_data, struct kb_data, rm_key_light)`:
writes the `rm_key_light` field. -/
def reader_rm_key_light (allocOk : Bool) (st : KbData) (rx : AttrRx) : Bool × KbData :=
  match rx.data with
  | .bool_data v => (true, { st with rm_key_light := v })
  | _ => (false, st)

/-- `MAKE_READER(caps_key_light, bool_data, struct kb_data, caps_key_light)`:
writes the `caps_key_light` field. -/
def reader_caps_key_light (allocOk : Bool) (st : KbData) (rx : AttrRx) : Bool × KbData :=
  match rx.data with
  | .bool_data v => (true, { st with caps_key_light := v })
  | _ => (false, st)

/-- `reader_fw_version`: reinterprets the `u16_data` member as
`struct fw_version {major; minor}` (little-endian: low byte is `major`). -/
def reader_fw_version (allocOk : Bool) (st : KbData) (rx : AttrRx) : Bool × KbData :=
  match rx.data with
  | .u16_data v => (true, { st with fwu_current_fw_version := ⟨v % 256, v / 256 % 256⟩ })
  | _ => (false, st)

/-- `reader_bl_brightness_array`: rejects a payload whose element subtype is
not unsigned-8-bit or whose element count is not `ATTRIBUTES_NR_OF_BKLS`,
otherwise copies the six elements into `bl_brightness_array`. -/
def reader_bl_brightness_array (allocOk : Bool) (st : KbData) (rx : AttrRx) : Bool × KbData :=
  match rx.data with
  | .array subtype n_len array_data =>
    if subtype ≠ ATTRIBUTE_STORAGE_DATA_UNSIGNED_8_BIT then (false, st)
    else if n_len ≠ ATTRIBUTES_NR_OF_BKLS then (false, st)
    else (true, { st with bl_brightness_array :=
                    (List.range ATTRIBUTES_NR_OF_BKLS).map (fun i => array_data.getD i 0) })
  | _ => (false, st)

/-- `reader_octet_attribute`: selects the destination string field by the
attribute id, then does
`*octet_attribute = devm_krealloc(dev, *octet_attribute, str_len + 1, ...)`.
`allocOk` is the outcome of `devm_krealloc`: on success the field points at
a fresh buffer holding the payload bytes plus a terminating zero; on failure
`devm_krealloc` returns NULL, which the assignment stores into the field. -/
def reader_octet_attribute (allocOk : Bool) (st : KbData) (rx : AttrRx) : Bool × KbData :=
  match rx.data with
  | .octets str =>
    if rx.id = KB_ATTR_ID_DEVICE_NAME then
      if allocOk then (true, { st with device_name := some (str ++ [0]) })
      else (false, { st with device_name := none })
    else if rx.id = KB_ATTR_ID_RM_SERIAL_NUMBER then
      if allocOk then (true, { st with rm_serial_number := some (str ++ [0]) })
      else (false, { st with rm_serial_number := none })
    else if rx.id = KB_ATTR_ID_CN_SERIAL_NUMBER then
      if allocOk then (true, { st with cn_serial_number := some (str ++ [0]) })
      else (false, { st with cn_serial_number := none })
    else (false, st)
  | _ => (false, st)

/- ### Attribute registry -/

/-- `struct attribute_config`: id, wire type, decode callback, name. -/
structure AttributeConfig where
  id : Nat
  type : Nat
  reader : Bool → KbData → AttrRx → Bool × KbData
  name : String

/-- The `attribute_configs[]` table from the source, entry for entry. -/
def attribute_configs : List AttributeConfig :=
  [ ⟨KB_ATTR_ID_KEY_LAYOUT, ATTRIBUTE_STORAGE_DATA_UNSIGNED_8_BIT,
      reader_key_layout, "KB_ATTR_ID_KEY_LAYOUT"⟩,
    ⟨KB_ATTR_ID_LANGUAGE, ATTRIBUTE_STORAGE_DATA_ENUM_8_BIT,
      reader_language, "KB_ATTR_ID_LANGUAGE"⟩,
    ⟨KB_ATTR_ID_RM_SERIAL_NUMBER, ATTRIBUTE_STORAGE_DATA_CHARACTER_STRING,
      reader_octet_attribute, "KB_ATTR_ID_RM_SERIAL_NUMBER"⟩,
    ⟨KB_ATTR_ID_CN_SERIAL_NUMBER, ATTRIBUTE_STORAGE_DATA_CHARACTER_STRING,
      reader_octet_attribute, "KB_ATTR_ID_CN_SERIAL_NUMBER"⟩,
    ⟨KB_ATTR_ID_MFG_PROD_RECORDS, ATTRIBUTE_STORAGE_DATA_UNSIGNED_8_BIT,
      reader_prod_records, "KB_ATTR_ID_MFG_PROD_RECORDS"⟩,
    ⟨KB_ATTR_ID_FW_VERSION, ATTRIBUTE_STORAGE_DATA_UNSIGNED_16_BIT,
      reader_fw_version, "KB_ATTR_ID_FW_VERSION"⟩,
    ⟨KB_ATTR_ID_IMAGE_START_ADDRESS, ATTRIBUTE_STORAGE_DATA_UNSIGNED_32_BIT,
      reader_image_start_address, "KB_ATTR_ID_IMAGE_START_ADDRESS"⟩,
    ⟨KB_ATTR_ID_DEVICE_NAME, ATTRIBUTE_STORAGE_DATA_CHARACTER_STRING,
      reader_octet_attribute, "KB_ATTR_ID_DEVICE_NAME"⟩,
    ⟨KB_ATTR_ID_GIT_INFO, ATTRIBUTE_STORAGE_DATA_32_BIT,
      reader_git_info, "KB_ATTR_ID_GIT_INFO"⟩,
    ⟨KB_ATTR_ID_BKL_BRIGHTNESS, ATTRIBUTE_STORAGE_DATA_ARRAY,
      reader_bl_brightness_array, "KB_ATTR_ID_BKL_BRIGHTNESS"⟩,
    ⟨KB_ATTR_ID_VALID_IMAGE, ATTRIBUTE_STORAGE_DATA_BOOLEAN,
      reader_valid_image, "KB_ATTR_ID_VALID_IMAGE"⟩,
    ⟨KB_ATTR_ID_KEY_LIGHT_CAPS, ATTRIBUTE_STORAGE_DATA_BOOLEAN,
      reader_rm_key_light, "KB_ATTR_ID_KEY_LIGHT_CAPS"⟩,
    ⟨KB_ATTR_ID_KEY_LIGHT_RM, ATTRIBUTE_STORAGE_DATA_BOOLEAN,
      reader_caps_key_light, "KB_ATTR_ID_KEY_LIGHT_RM"⟩ ]

/-- Modelled from the spec (§4.2): the registry dispatcher (in
`rm_hwmon_api`, not in the repository) looks the id up in the registered
table and invokes the configured decode; an unknown id drops the payload. -/
def dispatch_attribute (allocOk : Bool) (st : KbData) (rx : AttrRx) : Bool × KbData :=
  match attribute_configs.find? (fun c => c.id = rx.id) with
  | none => (false, st)
  | some c => c.reader allocOk st rx

/- ### Key event decode -/

/-- `struct rm_hwmon_kb_key_event` (bit fields: pressed:1, row:3, column:4,
plus the sequence byte). -/
structure RmHwmonKbKeyEvent where
  pressed : Bool
  row : Nat
  column : Nat
  seq_num : Nat
deriving DecidableEq, Repr

/-- Modelled from the spec (§4.3) and the Linux `matrix_keypad.h` macro the
source calls: `MATRIX_SCAN_CODE(row, col, row_shift) = (row << row_shift) + col`. -/
def MATRIX_SCAN_CODE (row col row_shift : Nat) : Nat :=
  (row <<< row_shift) + col

/-- Find-last-set with structural fuel (the kernel `fls`): position of the
highest set bit, with `fls 0 = 0`. -/
def fls_go : Nat → Nat → Nat
  | 0, _ => 0
  | fuel + 1, n => if n = 0 then 0 else fls_go fuel (n / 2) + 1

/-- Kernel `fls(n)`. -/
def fls (n : Nat) : Nat := fls_go n n

/-- Modelled from the kernel header used by the source:
`get_count_order(count) = fls(count - 1)` (ceil of log2), `-1` for 0. -/
def get_count_order (n : Nat) : Int :=
  if n = 0 then -1 else Int.ofNat (fls (n - 1))

/-- `struct rm_hwmon_kb_keymap_data`: keymap size plus matrix geometry. -/
structure KeymapLayout where
  keymap_size : Nat
  row : Nat
  col : Nat
deriving DecidableEq, Repr

/-- `ARRAY_SIZE(rm_hwmon_keymap_v1)`: the v1 table defines 7 × 16 entries. -/
def rm_hwmon_keymap_v1_size : Nat := 112

/-- `keymap_layouts[]`: a single catalog entry with rows = 7, cols = 16. -/
def keymap_layouts : List KeymapLayout :=
  [ ⟨rm_hwmon_keymap_v1_size, 7, 16⟩ ]

/-- The layout-index fallback in `rm_hwmon_keyboard_make_input_dev`: an
out-of-range `key_layout` falls back to 0. -/
def select_key_layout (key_layout : Nat) : Nat :=
  if key_layout ≥ keymap_layouts.length then 0 else key_layout

/-- The row shift computed at layout selection time in
`rm_hwmon_keyboard_make_input_dev`:
`pdata->kb_row_shift = get_count_order(keymap_layout->col)`. -/
def computed_row_shift (key_layout : Nat) : Int :=
  get_count_order ((keymap_layouts.getD (select_key_layout key_layout) ⟨0, 0, 0⟩).col)

/-- Observable interactions of `rm_hwmon_keyboard_report` with its
collaborators: scheduling the connect work, reporting a key transition,
emitting the input-sync marker. -/
inductive ReportAction where
  | schedule_reconnect
  | report_key (keycode : Nat) (pressed : Bool)
  | sync_marker
deriving DecidableEq, Repr

/-- `rm_hwmon_keyboard_report`: with no input device present, warns,
schedules the connect work and returns `- ENXIO`; otherwise computes the
matrix scan code, reports the key from the keymap and syncs. -/
def rm_hwmon_keyboard_report (st : KbData) (keymap : List Nat)
    (event : RmHwmonKbKeyEvent) : Int × List ReportAction :=
  if ¬st.kb_dev_present then
    (- ENXIO, [ReportAction.schedule_reconnect])
  else
    (0, [ReportAction.report_key
           (keymap.getD (MATRIX_SCAN_CODE event.row event.column st.kb_row_shift) 0)
           event.pressed,
         ReportAction.sync_marker])

/- ### sysfs language read -/

/-- The `sysfs_language[]` table (index 0 is the illegal sentinel; the
8 real language names are at indices 1..8). -/
def sysfs_language : List String :=
  ["ILLEGAL", "DE", "ES", "FR", "IT", "NO", "PT", "UK", "US"]

/-- `language_show`: `-ENODEV` with no input device, `-ENOEXEC` when the
stored language code is outside `(LANGUAGE_MIN, LANGUAGE_MAX)` exclusive,
otherwise the table entry (the `"%s\n"` formatting collaborator is out of
scope, the result is the selected name). -/
def language_show (st : KbData) : Except Int String :=
  if ¬st.kb_dev_present then Except.error (-ENODEV)
  else if st.language ≤ LANGUAGE_MIN ∨ LANGUAGE_MAX ≤ st.language then
    Except.error (-ENOEXEC)
  else Except.ok (sysfs_language.getD st.language "")

/- ### Indicator event handler and single-slot attribute writer -/

/-- The oracle for `rm_hwmon_kb_event`'s collaborators:
`parent_pdata->next_suspend_is_slumber`, the outcome of
`rm_hwmon_api_alloc_write_buffer`, and the outcome of `schedule_work`. -/
structure EventEnv where
  next_suspend_is_slumber : Bool
  allocOk : Bool
  schedule_ok : Bool
deriving DecidableEq, Repr

/-- The body of `rm_hwmon_kb_event` after the LED-code switch has stored
the attribute id: busy check, slumber suppression, buffer allocation,
work scheduling, and the manual cache update. -/
def rm_hwmon_kb_event_submit (env : EventEnv) (st : KbData)
    (code : Nat) (value : Int) : Int × KbData :=
  if st.attr_writer_request.isSome then (-EBUSY, st)
  else if value = 0 ∧ env.next_suspend_is_slumber = true then (0, st)
  else
    let st1 := { st with attr_writer_data_length := 1 }
    if ¬env.allocOk then (-ENOMEM, st1)
    else
      let st2 := { st1 with attr_writer_request := some ((value % 256).toNat) }
      if ¬env.schedule_ok then (-1, { st2 with attr_writer_request := none })
      else if code = LED_CAPSL then (0, { st2 with caps_key_light := value != 0 })
      else if code = LED_MISC then (0, { st2 with rm_key_light := value != 0 })
      else (-1, st2)

/-- `rm_hwmon_kb_event`: rejects non-LED events, maps `LED_CAPSL` to
`KB_ATTR_ID_KEY_LIGHT_CAPS` and `LED_MISC` to `KB_ATTR_ID_KEY_LIGHT_RM`
(storing the id into the writer slot's attribute field), then runs the
submission body. -/
def rm_hwmon_kb_event (env : EventEnv) (st : KbData)
    (etype code : Nat) (value : Int) : Int × KbData :=
  if etype ≠ EV_LED then (-1, st)
  else if code = LED_CAPSL then
    rm_hwmon_kb_event_submit env
      { st with attr_writer_attribute := KB_ATTR_ID_KEY_LIGHT_CAPS } code value
  else if code = LED_MISC then
    rm_hwmon_kb_event_submit env
      { st with attr_writer_attribute := KB_ATTR_ID_KEY_LIGHT_RM } code value
  else (-1, st)

/-- `rm_hwmon_keyboard_attribute_writer` (the work function): if a request
is pending, performs the transport write (whose result `write_ret` is only
logged), frees the request and clears the slot — regardless of the write's
outcome.  Returns the new state and the `(attribute, payload)` pair written,
if any. -/
def rm_hwmon_keyboard_attribute_writer (write_ret : Int) (st : KbData) :
    KbData × Option (Nat × Nat) :=
  match st.attr_writer_request with
  | some payload =>
      ({ st with attr_writer_request := none },
       some (st.attr_writer_attribute, payload))
  | none => (st, none)

/- ### Brightness write -/

/-- Oracle for `rm_hwmon_keyboard_set_brightness`: outcome of
`rm_hwmon_api_alloc_write_buffer` and return of
`rm_hwmon_api_write_attribute`. -/
structure BrightnessEnv where
  allocOk : Bool
  write_ret : Int
deriving DecidableEq, Repr

/-- The array payload built for an outbound `attribute_tx` write. -/
structure ArrayTx where
  subtype : Nat
  n_len : Nat
  array_data : List Nat
deriving DecidableEq, Repr

/-- `rm_hwmon_keyboard_set_brightness`: allocates a write buffer
(`-ENOMEM` on failure, no write submitted), fills the array payload with
the brightness coefficient replicated over the six slots, and writes the
`KB_ATTR_ID_BKL_BRIGHTNESS` attribute.  Returns the write's status and the
payload written (`none` when no write happened). -/
def rm_hwmon_keyboard_set_brightness (env : BrightnessEnv) (bl_brightness : Int) :
    Int × Option ArrayTx :=
  if ¬env.allocOk then (-ENOMEM, none)
  else
    (env.write_ret,
     some ⟨ATTRIBUTE_STORAGE_DATA_UNSIGNED_8_BIT, ATTRIBUTES_NR_OF_BKLS,
           List.replicate ATTRIBUTES_NR_OF_BKLS (bl_brightness % 256).toNat⟩)

/- ### Firmware update sequence -/

/-- The steps of `rm_hwmon_keyboard_update_fwu`, in source order. -/
inductive FwuStep where
  | init
  | transfer
  | validate
  | read_attrs
  | version_compare
  | set_active
deriving DecidableEq, Repr

/-- Oracle for `rm_hwmon_keyboard_update_fwu`'s collaborators: the return
values of `rm_hwmon_fwu_init`, `rm_hwmon_fwu_transfer_binary`,
`rm_hwmon_fwu_validate_image`,
`rm_hwmon_keyboard_read_init_attributes` and
`rm_hwmon_fwu_set_image_active`, plus the image header's declared version
(`fwu.header.fw_version`) and the accessory-reported version after the
attribute re-read (`fwu.current_fw_version`). -/
structure FwuEnv where
  init_ret : Int
  transfer_ret : Int
  validate_ret : Int
  read_attrs_ret : Int
  set_active_ret : Int
  header_fw_version : FwVersion
  post_read_fw_version : FwVersion
deriving DecidableEq, Repr

/-- `memcmp` over the two bytes of `struct fw_version` in field order:
zero exactly when the versions agree byte for byte. -/
def memcmp_fw_version (a b : FwVersion) : Int :=
  if a.major ≠ b.major then (a.major : Int) - (b.major : Int)
  else if a.minor ≠ b.minor then (a.minor : Int) - (b.minor : Int)
  else 0

/-- `rm_hwmon_keyboard_update_fwu`: init → transfer → validate → re-read
attributes → version memcmp → set active, each step returning its error and
skipping the rest on failure.  Returns the final status and the list of
steps that executed. -/
def rm_hwmon_keyboard_update_fwu (env : FwuEnv) : Int × List FwuStep :=
  if env.init_ret ≠ 0 then (env.init_ret, [.init])
  else if env.transfer_ret ≠ 0 then (env.transfer_ret, [.init, .transfer])
  else if env.validate_ret ≠ 0 then
    (env.validate_ret, [.init, .transfer, .validate])
  else if env.read_attrs_ret ≠ 0 then
    (env.read_attrs_ret, [.init, .transfer, .validate, .read_attrs])
  else
    let m := memcmp_fw_version env.header_fw_version env.post_read_fw_version
    if m ≠ 0 then
      (m, [.init, .transfer, .validate, .read_attrs, .version_compare])
    else
      (env.set_active_ret,
       [.init, .transfer, .validate, .read_attrs, .version_compare, .set_active])

/- ### Connect / registration sequence -/

/-- Oracle for `rm_hwmon_keyboard_register`'s collaborators: the initial
attribute read, the two authorize commands, the two possible
`rm_hwmon_keyboard_make_input_dev` calls, the two possible brightness
writes, the `rm_hwmon_fwu_load_and_check_for_upgrade` answer and the
firmware-update oracle. -/
structure RegisterEnv where
  read_init_ret : Int
  authorize_ret : Int
  make_input_dev1_ret : Int
  brightness1 : BrightnessEnv
  upgrade_available : Bool
  fwu : FwuEnv
  authorize2_ret : Int
  brightness2 : BrightnessEnv
  make_input_dev2_ret : Int
deriving DecidableEq, Repr

/-- The observable outcome of one run of `rm_hwmon_keyboard_register`:
the returned status, whether `kb_dev` is non-NULL at exit (the logical
input surface is registered — the session is Active), whether
`rm_hwmon_keyboard_update_fwu` was run, and how many brightness attribute
writes were submitted. -/
structure RegisterOutcome where
  ret : Int
  surface_registered : Bool
  fwu_ran : Bool
  brightness_writes : Nat
deriving DecidableEq, Repr

/-- `rm_hwmon_keyboard_register`: tear down any stale surface, reset the
indicator state, read the initial attributes (failure aborts), send the
authorize request; on success build the input device, apply the current
brightness.  Then — regardless of the authorize result — check for an
eligible pending firmware image and, if one exists, run the full update
sequence.  After a successful upgrade, re-authorize (failure aborts) and
re-apply brightness; with no upgrade, an earlier authorize failure aborts.
Finally, build the input device if it was not built in the authorize
branch. -/
def rm_hwmon_keyboard_register (env : RegisterEnv) (bl_brightness : Int) :
    RegisterOutcome :=
  if env.read_init_ret ≠ 0 then
    ⟨env.read_init_ret, false, false, 0⟩
  else if env.authorize_ret = 0 ∧ env.make_input_dev1_ret ≠ 0 then
    -- kb_fail_register out of the authorize branch
    ⟨env.make_input_dev1_ret, false, false, 0⟩
  else
    let auth_successful := env.authorize_ret = 0
    let b1 : Int × Option ArrayTx :=
      if auth_successful then
        rm_hwmon_keyboard_set_brightness env.brightness1 bl_brightness
      else (env.authorize_ret, none)
    let w1 : Nat := if b1.snd.isSome then 1 else 0
    let retA : Int :=
      if env.upgrade_available then (rm_hwmon_keyboard_update_fwu env.fwu).fst
      else b1.fst
    let fw_upgraded := env.upgrade_available ∧ retA = 0
    if fw_upgraded then
      if env.authorize2_ret ≠ 0 then
        ⟨env.authorize2_ret, false, true, w1⟩
      else
        let b2 := rm_hwmon_keyboard_set_brightness env.brightness2 bl_brightness
        let w2 := w1 + (if b2.snd.isSome then 1 else 0)
        if ¬auth_successful then
          if env.make_input_dev2_ret ≠ 0 then
            ⟨env.make_input_dev2_ret, false, true, w2⟩
          else ⟨0, true, true, w2⟩
        else ⟨b2.fst, true, true, w2⟩
    else if ¬auth_successful then
      ⟨retA, false, env.upgrade_available, w1⟩
    else
      ⟨retA, true, env.upgrade_available, w1⟩

/- ### Concrete fixtures shared by witnesses and counterexamples -/

/-- An event oracle with no impending slumber and successful allocation and
scheduling. -/
def evGood : EventEnv := ⟨false, true, true⟩

/-- An event oracle where the next suspend is a low-power slumber. -/
def envSlumber : EventEnv := ⟨true, true, true⟩

/-- A brightness oracle with successful allocation and write. -/
def brightGood : BrightnessEnv := ⟨true, 0⟩

/-- A firmware-update oracle where every step succeeds and the post-update
version matches the header. -/
def fwuEnvOk : FwuEnv := ⟨0, 0, 0, 0, 0, ⟨1, 2⟩, ⟨1, 2⟩⟩

/-- A firmware-update oracle where every command succeeds but the accessory
reports a version different from the image header's. -/
def fwuEnvMismatch : FwuEnv := ⟨0, 0, 0, 0, 0, ⟨1, 2⟩, ⟨1, 3⟩⟩

/-- A state with a previously decoded device name (the bytes `"B\0"`). -/
def kbWithName : KbData := { kb0 with device_name := some [0x42, 0] }

/- ### Helper lemmas -/

/-- The two-byte version memcmp is zero exactly on byte-for-byte equality. -/
lemma memcmp_fw_version_eq_zero_iff (a b : FwVersion) :
    memcmp_fw_version a b = 0 ↔ a = b := by
  cases a with
  | mk amaj amin =>
    cases b with
    | mk bmaj bmin =>
      unfold memcmp_fw_version
      by_cases h1 : amaj = bmaj <;> by_cases h2 : amin = bmin <;>
        simp [h1, h2] <;> omega

/-- A submission against a free slot, with allocation and scheduling
succeeding and no slumber suppression, returns 0 and fills the slot. -/
lemma kb_event_success (env : EventEnv) (st : KbData) (code : Nat) (value : Int)
    (h0 : st.attr_writer_request = none)
    (hc : code = LED_CAPSL ∨ code = LED_MISC)
    (ha : env.allocOk = true) (hsch : env.schedule_ok = true)
    (hv : ¬(value = 0 ∧ env.next_suspend_is_slumber = true)) :
    (rm_hwmon_kb_event env st EV_LED code value).fst = 0 ∧
    (rm_hwmon_kb_event env st EV_LED code value).snd.attr_writer_request =
      some ((value % 256).toNat) := by
  rcases hc with h | h <;> subst h <;>
    simp [rm_hwmon_kb_event, rm_hwmon_kb_event_submit, EV_LED, LED_CAPSL, LED_MISC,
          h0, ha, hsch, hv]

/-- A submission while the slot is occupied returns `-EBUSY`. -/
lemma kb_event_busy (env : EventEnv) (st : KbData) (code : Nat) (value : Int)
    (h0 : st.attr_writer_request.isSome = true)
    (hc : code = LED_CAPSL ∨ code = LED_MISC) :
    (rm_hwmon_kb_event env st EV_LED code value).fst = -EBUSY := by
  rcases hc with h | h <;> subst h <;>
    simp [rm_hwmon_kb_event, rm_hwmon_kb_event_submit, EV_LED, LED_CAPSL, LED_MISC, h0]

/-- The background writer always leaves the slot free. -/
lemma attribute_writer_clears_slot (write_ret : Int) (st : KbData) :
    (rm_hwmon_keyboard_attribute_writer write_ret st).fst.attr_writer_request = none := by
  unfold rm_hwmon_keyboard_attribute_writer
  cases h : st.attr_writer_request <;> simp [h]

/- ### Claim theorems -/

/-- C1 counterexample: it is NOT the case that every connect sequence with a
successful initial attribute read and a successful authorize command avoids
the firmware path — when an eligible pending image exists
(`rm_hwmon_fwu_load_and_check_for_upgrade` returns true), the update
orchestrator runs even though authorization already succeeded, and the
brightness attribute is written twice rather than once. -/
theorem C1_counterexample :
    ¬ (∀ (env : RegisterEnv) (bl : Int),
        env.read_init_ret = 0 → env.authorize_ret = 0 →
        (rm_hwmon_keyboard_register env bl).surface_registered = true ∧
        (rm_hwmon_keyboard_register env bl).fwu_ran = false ∧
        (rm_hwmon_keyboard_register env bl).brightness_writes = 1) := by
  intro h
  have hclaim := (h ⟨0, 0, 0, brightGood, true, fwuEnvOk, 0, brightGood, 0⟩ 0 rfl rfl).2.1
  have heval : (rm_hwmon_keyboard_register
      ⟨0, 0, 0, brightGood, true, fwuEnvOk, 0, brightGood, 0⟩ 0).fwu_ran = true := by decide
  rw [heval] at hclaim
  exact absurd hclaim (by decide)

/-- C1 (amended): in a connect sequence in which the initial attribute read
succeeds, the authorize command succeeds, the input device is created
successfully, the brightness write buffer allocates, and no eligible pending
firmware image exists, the session reaches Active: the input surface is
registered, the firmware update orchestrator is not run, and the brightness
attribute is written exactly once. -/
theorem C1_active_without_firmware_path (env : RegisterEnv) (bl : Int)
    (hread : env.read_init_ret = 0)
    (hauth : env.authorize_ret = 0)
    (hmk : env.make_input_dev1_ret = 0)
    (hupg : env.upgrade_available = false)
    (halloc : env.brightness1.allocOk = true) :
    (rm_hwmon_keyboard_register env bl).surface_registered = true ∧
    (rm_hwmon_keyboard_register env bl).fwu_ran = false ∧
    (rm_hwmon_keyboard_register env bl).brightness_writes = 1 := by
  simp [rm_hwmon_keyboard_register, rm_hwmon_keyboard_set_brightness,
        hread, hauth, hmk, hupg, halloc]

/-- C1 witness: a concrete run (all collaborators succeed, no pending
image) registering the surface with one brightness write and no firmware
path. -/
theorem C1_active_without_firmware_path_witness :
    (rm_hwmon_keyboard_register
        ⟨0, 0, 0, brightGood, false, fwuEnvOk, 0, brightGood, 0⟩ 7).surface_registered = true ∧
    (rm_hwmon_keyboard_register
        ⟨0, 0, 0, brightGood, false, fwuEnvOk, 0, brightGood, 0⟩ 7).fwu_ran = false ∧
    (rm_hwmon_keyboard_register
        ⟨0, 0, 0, brightGood, false, fwuEnvOk, 0, brightGood, 0⟩ 7).brightness_writes = 1 :=
  C1_active_without_firmware_path
    ⟨0, 0, 0, brightGood, false, fwuEnvOk, 0, brightGood, 0⟩ 7 rfl rfl rfl rfl rfl

/-- C2 (code bug evaluation): decoding the device-name octet attribute while
`devm_krealloc` fails returns false, yet the destination string pointer does
NOT retain its previous value — the NULL result of `devm_krealloc` is
assigned to the field, so the previously decoded name is lost. -/
theorem C2_octet_alloc_failure_clears_field :
    kbWithName.device_name = some [0x42, 0] ∧
    (reader_octet_attribute false kbWithName
        ⟨KB_ATTR_ID_DEVICE_NAME, .octets [0x41]⟩).fst = false ∧
    (reader_octet_attribute false kbWithName
        ⟨KB_ATTR_ID_DEVICE_NAME, .octets [0x41]⟩).snd.device_name = none := by
  decide

/-- C3: each step of the firmware update sequence short-circuits the rest
and returns its own error; and when init, transfer, validate and the
attribute re-read all succeed but the accessory-reported version differs
byte-for-byte from the image header's declared version, the attempt fails
(nonzero status) and the activate step never runs — even though
validate-image returned success. -/
theorem C3_update_fwu_sequence (env : FwuEnv) :
    (env.init_ret = 0 → env.transfer_ret = 0 → env.validate_ret = 0 →
      env.read_attrs_ret = 0 →
      env.header_fw_version ≠ env.post_read_fw_version →
      (rm_hwmon_keyboard_update_fwu env).fst ≠ 0 ∧
        FwuStep.set_active ∉ (rm_hwmon_keyboard_update_fwu env).snd) ∧
    (env.init_ret ≠ 0 →
      rm_hwmon_keyboard_update_fwu env = (env.init_ret, [FwuStep.init])) ∧
    (env.init_ret = 0 → env.transfer_ret ≠ 0 →
      rm_hwmon_keyboard_update_fwu env =
        (env.transfer_ret, [FwuStep.init, FwuStep.transfer])) ∧
    (env.init_ret = 0 → env.transfer_ret = 0 → env.validate_ret ≠ 0 →
      rm_hwmon_keyboard_update_fwu env =
        (env.validate_ret, [FwuStep.init, FwuStep.transfer, FwuStep.validate])) ∧
    (env.init_ret = 0 → env.transfer_ret = 0 → env.validate_ret = 0 →
      env.read_attrs_ret ≠ 0 →
      rm_hwmon_keyboard_update_fwu env =
        (env.read_attrs_ret,
         [FwuStep.init, FwuStep.transfer, FwuStep.validate, FwuStep.read_attrs])) := by
  refine ⟨?_, ?_, ?_, ?_, ?_⟩
  · intro h1 h2 h3 h4 h5
    have hm : memcmp_fw_version env.header_fw_version env.post_read_fw_version ≠ 0 := by
      rw [Ne, memcmp_fw_version_eq_zero_iff]
      exact h5
    refine ⟨?_, ?_⟩ <;> simp [rm_hwmon_keyboard_update_fwu, h1, h2, h3, h4, hm]
  · intro h1
    simp [rm_hwmon_keyboard_update_fwu, h1]
  · intro h1 h2
    simp [rm_hwmon_keyboard_update_fwu, h1, h2]
  · intro h1 h2 h3
    simp [rm_hwmon_keyboard_update_fwu, h1, h2, h3]
  · intro h1 h2 h3 h4
    simp [rm_hwmon_keyboard_update_fwu, h1, h2, h3, h4]

/-- C3 witness: every command succeeds but the reported version `1.3`
differs from the header's `1.2`; the attempt fails and activate is
skipped. -/
theorem C3_update_fwu_sequence_witness :
    (rm_hwmon_keyboard_update_fwu fwuEnvMismatch).fst ≠ 0 ∧
      FwuStep.set_active ∉ (rm_hwmon_keyboard_update_fwu fwuEnvMismatch).snd :=
  (C3_update_fwu_sequence fwuEnvMismatch).1 rfl rfl rfl rfl (by decide)

/-- C4 counterexample: it is NOT the case that the slumber-time suppression
of "off" indicator writes is specific to the rM indicator — the caps
indicator's off transition is suppressed too (the handler returns success
without submitting a write), so a suppressed off event does not imply the
code was `LED_MISC`. -/
theorem C4_counterexample :
    ¬ (∀ (env : EventEnv) (st : KbData) (code : Nat),
        st.attr_writer_request = none →
        env.next_suspend_is_slumber = true →
        (code = LED_CAPSL ∨ code = LED_MISC) →
        (rm_hwmon_kb_event env st EV_LED code 0).fst = 0 →
        (rm_hwmon_kb_event env st EV_LED code 0).snd.attr_writer_request = none →
        code = LED_MISC) := by
  intro h
  have := h envSlumber kb0 LED_CAPSL rfl rfl (Or.inl rfl) (by decide) (by decide)
  exact absurd this (by decide)

/-- C4 (amended): an "off" indicator transition (value zero) arriving when
the next suspend is a low-power slumber is suppressed for BOTH indicators
(caps and rM): the handler returns success without submitting a write, and
neither cached indicator state changes. -/
theorem C4_slumber_off_suppression (env : EventEnv) (st : KbData) (code : Nat)
    (h0 : st.attr_writer_request = none)
    (hs : env.next_suspend_is_slumber = true)
    (hc : code = LED_CAPSL ∨ code = LED_MISC) :
    (rm_hwmon_kb_event env st EV_LED code 0).fst = 0 ∧
    (rm_hwmon_kb_event env st EV_LED code 0).snd.attr_writer_request = none ∧
    (rm_hwmon_kb_event env st EV_LED code 0).snd.caps_key_light = st.caps_key_light ∧
    (rm_hwmon_kb_event env st EV_LED code 0).snd.rm_key_light = st.rm_key_light := by
  rcases hc with h | h <;> subst h <;>
    simp [rm_hwmon_kb_event, rm_hwmon_kb_event_submit, EV_LED, LED_CAPSL, LED_MISC, h0, hs]

/-- C4 witness: the rM indicator's off transition during an impending
slumber is a no-op success with unchanged cache. -/
theorem C4_slumber_off_suppression_witness :
    (rm_hwmon_kb_event envSlumber kb0 EV_LED LED_MISC 0).fst = 0 ∧
    (rm_hwmon_kb_event envSlumber kb0 EV_LED LED_MISC 0).snd.attr_writer_request = none ∧
    (rm_hwmon_kb_event envSlumber kb0 EV_LED LED_MISC 0).snd.caps_key_light = kb0.caps_key_light ∧
    (rm_hwmon_kb_event envSlumber kb0 EV_LED LED_MISC 0).snd.rm_key_light = kb0.rm_key_light :=
  C4_slumber_off_suppression envSlumber kb0 LED_MISC rfl rfl (Or.inr rfl)

/-- C5: a successful indicator-write submission fills the single slot and
returns 0; any second submission arriving before the background write runs
returns `-EBUSY`; the background writer frees the slot regardless of the
transport write's outcome; and a submission made after that release
succeeds again. -/
theorem C5_single_slot_writer (env env' : EventEnv) (st : KbData)
    (code code' : Nat) (value value' : Int)
    (h0 : st.attr_writer_request = none)
    (hc : code = LED_CAPSL ∨ code = LED_MISC)
    (hc' : code' = LED_CAPSL ∨ code' = LED_MISC)
    (ha : env.allocOk = true) (hsch : env.schedule_ok = true)
    (hv : ¬(value = 0 ∧ env.next_suspend_is_slumber = true))
    (ha' : env'.allocOk = true) (hsch' : env'.schedule_ok = true)
    (hv' : ¬(value' = 0 ∧ env'.next_suspend_is_slumber = true)) :
    (rm_hwmon_kb_event env st EV_LED code value).fst = 0 ∧
    ((rm_hwmon_kb_event env st EV_LED code value).snd.attr_writer_request).isSome = true ∧
    (∀ (env2 : EventEnv) (code2 : Nat) (value2 : Int),
        code2 = LED_CAPSL ∨ code2 = LED_MISC →
        (rm_hwmon_kb_event env2 (rm_hwmon_kb_event env st EV_LED code value).snd
            EV_LED code2 value2).fst = -EBUSY) ∧
    (∀ write_ret : Int,
        (rm_hwmon_keyboard_attribute_writer write_ret
            (rm_hwmon_kb_event env st EV_LED code value).snd).fst.attr_writer_request = none ∧
        (rm_hwmon_kb_event env'
            (rm_hwmon_keyboard_attribute_writer write_ret
              (rm_hwmon_kb_event env st EV_LED code value).snd).fst
            EV_LED code' value').fst = 0) := by
  obtain ⟨hret, hreq⟩ := kb_event_success env st code value h0 hc ha hsch hv
  refine ⟨hret, by rw [hreq]; rfl, ?_, ?_⟩
  · intro env2 code2 value2 hc2
    exact kb_event_busy env2 _ code2 value2 (by rw [hreq]; rfl) hc2
  · intro write_ret
    refine ⟨attribute_writer_clears_slot write_ret _, ?_⟩
    exact (kb_event_success env' _ code' value'
      (attribute_writer_clears_slot write_ret _) hc' ha' hsch' hv').1

/-- C5 witness: turning the caps light on, a second submission (rM light)
is busy, the background writer frees the slot, and a third submission
succeeds. -/
theorem C5_single_slot_writer_witness :
    (rm_hwmon_kb_event evGood kb0 EV_LED LED_CAPSL 1).fst = 0 ∧
    (rm_hwmon_kb_event evGood (rm_hwmon_kb_event evGood kb0 EV_LED LED_CAPSL 1).snd
        EV_LED LED_MISC 1).fst = -EBUSY ∧
    (rm_hwmon_keyboard_attribute_writer (-1)
        (rm_hwmon_kb_event evGood kb0 EV_LED LED_CAPSL 1).snd).fst.attr_writer_request = none ∧
    (rm_hwmon_kb_event evGood
        (rm_hwmon_keyboard_attribute_writer (-1)
          (rm_hwmon_kb_event evGood kb0 EV_LED LED_CAPSL 1).snd).fst
        EV_LED LED_MISC 1).fst = 0 := by
  have h := C5_single_slot_writer evGood evGood kb0 LED_CAPSL LED_MISC 1 1 rfl
    (Or.inl rfl) (Or.inr rfl) rfl rfl (by decide) rfl rfl (by decide)
  exact ⟨h.1, h.2.2.1 evGood LED_MISC 1 (Or.inr rfl), (h.2.2.2 (-1)).1, (h.2.2.2 (-1)).2⟩

/-- C6: a key event delivered while the input surface is unregistered
returns `- ENXIO`, schedules exactly one reconnect request, and reports no
key transition and no synchronization marker. -/
theorem C6_key_event_without_surface (st : KbData) (keymap : List Nat)
    (event : RmHwmonKbKeyEvent) (h : st.kb_dev_present = false) :
    (rm_hwmon_keyboard_report st keymap event).fst = - ENXIO ∧
    ((rm_hwmon_keyboard_report st keymap event).snd.count
        ReportAction.schedule_reconnect = 1) ∧
    (∀ (k : Nat) (p : Bool),
        ReportAction.report_key k p ∉ (rm_hwmon_keyboard_report st keymap event).snd) ∧
    ReportAction.sync_marker ∉ (rm_hwmon_keyboard_report st keymap event).snd := by
  simp [rm_hwmon_keyboard_report, h, List.count_singleton]

/-- C6 witness: a concrete key press against a disconnected session. -/
theorem C6_key_event_without_surface_witness :
    (rm_hwmon_keyboard_report kb0 [] ⟨true, 2, 5, 0⟩).fst = - ENXIO ∧
    ((rm_hwmon_keyboard_report kb0 [] ⟨true, 2, 5, 0⟩).snd.count
        ReportAction.schedule_reconnect = 1) ∧
    (∀ (k : Nat) (p : Bool),
        ReportAction.report_key k p ∉ (rm_hwmon_keyboard_report kb0 [] ⟨true, 2, 5, 0⟩).snd) ∧
    ReportAction.sync_marker ∉ (rm_hwmon_keyboard_report kb0 [] ⟨true, 2, 5, 0⟩).snd :=
  C6_key_event_without_surface kb0 [] ⟨true, 2, 5, 0⟩ rfl

/-- C7: the scan index computed by the report path equals
`row * (1 <<< row_shift) + col`, and the row shift computed at layout
selection time for the catalog's 7-row, 16-column layout equals 4. -/
theorem C7_scan_index_and_row_shift :
    (∀ row col row_shift : Nat,
        MATRIX_SCAN_CODE row col row_shift = row * (1 <<< row_shift) + col) ∧
    computed_row_shift 0 = 4 := by
  constructor
  · intro row col row_shift
    simp [MATRIX_SCAN_CODE, Nat.shiftLeft_eq, Nat.one_shiftLeft]
  · decide

/-- C8: a brightness-array decode whose payload has an element subtype other
than unsigned-8-bit or an element count other than the six backlight slots
returns failure and leaves every element of the target brightness array
unchanged. -/
theorem C8_brightness_array_reject (allocOk : Bool) (st : KbData)
    (id subtype n_len : Nat) (array_data : List Nat)
    (h : subtype ≠ ATTRIBUTE_STORAGE_DATA_UNSIGNED_8_BIT ∨
         n_len ≠ ATTRIBUTES_NR_OF_BKLS) :
    (reader_bl_brightness_array allocOk st
        ⟨id, .array subtype n_len array_data⟩).fst = false ∧
    (reader_bl_brightness_array allocOk st
        ⟨id, .array subtype n_len array_data⟩).snd = st := by
  by_cases hs : subtype = ATTRIBUTE_STORAGE_DATA_UNSIGNED_8_BIT
  · rcases h with h | h
    · exact absurd hs h
    · simp [reader_bl_brightness_array, hs, h]
  · simp [reader_bl_brightness_array, hs]

/-- C8 witness: a boolean-subtype payload with the right element count is
rejected and the brightness array keeps its previous contents. -/
theorem C8_brightness_array_reject_witness :
    (reader_bl_brightness_array true kb0
        ⟨KB_ATTR_ID_BKL_BRIGHTNESS,
         .array ATTRIBUTE_STORAGE_DATA_BOOLEAN 6 [9, 9, 9, 9, 9, 9]⟩).fst = false ∧
    (reader_bl_brightness_array true kb0
        ⟨KB_ATTR_ID_BKL_BRIGHTNESS,
         .array ATTRIBUTE_STORAGE_DATA_BOOLEAN 6 [9, 9, 9, 9, 9, 9]⟩).snd = kb0 :=
  C8_brightness_array_reject true kb0 KB_ATTR_ID_BKL_BRIGHTNESS
    ATTRIBUTE_STORAGE_DATA_BOOLEAN 6 [9, 9, 9, 9, 9, 9] (Or.inl (by decide))

/-- C9: with the input device present, the language read returns an entry
of the fixed 8-entry language table exactly when the stored code is in
1..8, and returns the `-ENOEXEC` error status for every code outside 1..8,
including the sentinels 0 and 9. -/
theorem C9_language_show (st : KbData) (hdev : st.kb_dev_present = true) :
    ((∃ s, s ∈ sysfs_language.drop 1 ∧ language_show st = Except.ok s) ↔
      (1 ≤ st.language ∧ st.language ≤ 8)) ∧
    (st.language = 0 ∨ 9 ≤ st.language →
      language_show st = Except.error (-ENOEXEC)) := by
  constructor
  · constructor
    · rintro ⟨s, hmem, hok⟩
      by_cases hbad : st.language ≤ LANGUAGE_MIN ∨ LANGUAGE_MAX ≤ st.language
      · simp [language_show, hdev, hbad] at hok
      · simp only [LANGUAGE_MIN, LANGUAGE_MAX] at hbad
        omega
    · rintro ⟨h1, h8⟩
      have hbad : ¬(st.language ≤ LANGUAGE_MIN ∨ LANGUAGE_MAX ≤ st.language) := by
        simp only [LANGUAGE_MIN, LANGUAGE_MAX]
        omega
      refine ⟨sysfs_language.getD st.language "", ?_, ?_⟩
      · have hcases : st.language = 1 ∨ st.language = 2 ∨ st.language = 3 ∨
            st.language = 4 ∨ st.language = 5 ∨ st.language = 6 ∨
            st.language = 7 ∨ st.language = 8 := by omega
        rcases hcases with h | h | h | h | h | h | h | h <;> rw [h] <;> decide
      · simp [language_show, hdev, hbad]
  · intro hout
    have hbad : st.language ≤ LANGUAGE_MIN ∨ LANGUAGE_MAX ≤ st.language := by
      simp only [LANGUAGE_MIN, LANGUAGE_MAX]
      omega
    simp [language_show, hdev, hbad]

/-- C9 witness: code 3 yields the table entry "FR"; the illegal sentinel 9
yields the error status. -/
theorem C9_language_show_witness :
    (∃ s, s ∈ sysfs_language.drop 1 ∧
        language_show { kb0 with kb_dev_present := true, language := 3 } = Except.ok s) ∧
    language_show { kb0 with kb_dev_present := true, language := 9 } =
      Except.error (-ENOEXEC) :=
  ⟨(C9_language_show { kb0 with kb_dev_present := true, language := 3 } rfl).1.2
      (by decide),
   (C9_language_show { kb0 with kb_dev_present := true, language := 9 } rfl).2
      (Or.inr (by decide))⟩

/-- C10: the decode targets of the two indicator attributes are cross-wired
relative to their names and to the write path — dispatching an inbound
response for `KB_ATTR_ID_KEY_LIGHT_CAPS` invokes the decode that writes the
`rm_key_light` field (leaving `caps_key_light` unchanged) and
`KB_ATTR_ID_KEY_LIGHT_RM` invokes the decode that writes `caps_key_light`
(leaving `rm_key_light` unchanged), whereas the indicator write path caches
`caps_key_light` for the caps attribute and `rm_key_light` for the rM
attribute. -/
theorem C10_key_light_cross_wiring (allocOk : Bool) (st stw : KbData) (b : Bool)
    (env : EventEnv) (value : Int)
    (h0 : stw.attr_writer_request = none)
    (ha : env.allocOk = true) (hsch : env.schedule_ok = true)
    (hv : ¬(value = 0 ∧ env.next_suspend_is_slumber = true)) :
    (dispatch_attribute allocOk st
        ⟨KB_ATTR_ID_KEY_LIGHT_CAPS, .bool_data b⟩).snd.rm_key_light = b ∧
    (dispatch_attribute allocOk st
        ⟨KB_ATTR_ID_KEY_LIGHT_CAPS, .bool_data b⟩).snd.caps_key_light = st.caps_key_light ∧
    (dispatch_attribute allocOk st
        ⟨KB_ATTR_ID_KEY_LIGHT_RM, .bool_data b⟩).snd.caps_key_light = b ∧
    (dispatch_attribute allocOk st
        ⟨KB_ATTR_ID_KEY_LIGHT_RM, .bool_data b⟩).snd.rm_key_light = st.rm_key_light ∧
    (rm_hwmon_kb_event env stw EV_LED LED_CAPSL value).snd.attr_writer_attribute =
      KB_ATTR_ID_KEY_LIGHT_CAPS ∧
    (rm_hwmon_kb_event env stw EV_LED LED_CAPSL value).snd.caps_key_light = (value != 0) ∧
    (rm_hwmon_kb_event env stw EV_LED LED_CAPSL value).snd.rm_key_light = stw.rm_key_light ∧
    (rm_hwmon_kb_event env stw EV_LED LED_MISC value).snd.attr_writer_attribute =
      KB_ATTR_ID_KEY_LIGHT_RM ∧
    (rm_hwmon_kb_event env stw EV_LED LED_MISC value).snd.rm_key_light = (value != 0) ∧
    (rm_hwmon_kb_event env stw EV_LED LED_MISC value).snd.caps_key_light = stw.caps_key_light := by
  refine ⟨rfl, rfl, rfl, rfl, ?_, ?_, ?_, ?_, ?_, ?_⟩ <;>
    simp [rm_hwmon_kb_event, rm_hwmon_kb_event_submit, EV_LED, LED_CAPSL, LED_MISC,
          h0, ha, hsch, hv]

/-- C10 witness: turning each indicator on through the event path, and
dispatching each indicator attribute id, at concrete values. -/
theorem C10_key_light_cross_wiring_witness :
    (dispatch_attribute true kb0
        ⟨KB_ATTR_ID_KEY_LIGHT_CAPS, .bool_data true⟩).snd.rm_key_light = true ∧
    (dispatch_attribute true kb0
        ⟨KB_ATTR_ID_KEY_LIGHT_CAPS, .bool_data true⟩).snd.caps_key_light = kb0.caps_key_light ∧
    (dispatch_attribute true kb0
        ⟨KB_ATTR_ID_KEY_LIGHT_RM, .bool_data true⟩).snd.caps_key_light = true ∧
    (dispatch_attribute true kb0
        ⟨KB_ATTR_ID_KEY_LIGHT_RM, .bool_data true⟩).snd.rm_key_light = kb0.rm_key_light ∧
    (rm_hwmon_kb_event evGood kb0 EV_LED LED_CAPSL 1).snd.attr_writer_attribute =
      KB_ATTR_ID_KEY_LIGHT_CAPS ∧
    (rm_hwmon_kb_event evGood kb0 EV_LED LED_CAPSL 1).snd.caps_key_light = ((1 : Int) != 0) ∧
    (rm_hwmon_kb_event evGood kb0 EV_LED LED_CAPSL 1).snd.rm_key_light = kb0.rm_key_light ∧
    (rm_hwmon_kb_event evGood kb0 EV_LED LED_MISC 1).snd.attr_writer_attribute =
      KB_ATTR_ID_KEY_LIGHT_RM ∧
    (rm_hwmon_kb_event evGood kb0 EV_LED LED_MISC 1).snd.rm_key_light = ((1 : Int) != 0) ∧
    (rm_hwmon_kb_event evGood kb0 EV_LED LED_MISC 1).snd.caps_key_light = kb0.caps_key_light :=
  C10_key_light_cross_wiring true kb0 kb0 true evGood 1 rfl rfl rfl (by decide)
